import Mathlib

/-!
Verification of the Sulis combat core: a shallow embedding of
`sulis_rules/src/damage.rs`, `sulis_state/src/actor_state.rs` and the
target-set filtering of `sulis_state/src/script/script_entity.rs`,
together with proofs about the damage resolution engine, attack
resolution, HP/AP bookkeeping, listener notification and script-facing
entity filters.

Machine integers are embedded as `Nat`/`Int`; the one place where u32
overflow semantics matter (`ActorState::remove_hp` casting its `u32`
argument to `i32`) is embedded with an explicit wrap at `2^32`/`2^31`.
The `f32` tier multiplier is embedded as `ℚ` with truncation toward
zero on conversion back to u32; every multiplier appearing in a
concrete scenario (`1.0`) is exactly representable in `f32`, so the
embedding agrees with the source there.  Randomness (`rand::gen_range`)
is embedded by threading an explicit oracle: `gen_range(min, max+1)`
returns some value in `[min, max]`, embedded as `min + r % (max+1-min)`
for an arbitrary oracle value `r`, which has exactly the same set of
possible results.
-/

/-- The nine damage kinds of `DamageKind` in `damage.rs`, in declaration
order (which is the `Ord` order used by `sort_by_key`). -/
inductive DamageKind where
  | Slashing
  | Piercing
  | Crushing
  | Acid
  | Cold
  | Electrical
  | Fire
  | Sonic
  | Raw
deriving DecidableEq

/-- Index of a `DamageKind` in declaration order, mirroring the derived
`Ord` instance in `damage.rs`. -/
def DamageKind.idx : DamageKind → Nat
  | .Slashing => 0
  | .Piercing => 1
  | .Crushing => 2
  | .Acid => 3
  | .Cold => 4
  | .Electrical => 5
  | .Fire => 6
  | .Sonic => 7
  | .Raw => 8

/-- The `Damage` struct of `damage.rs`: `min`/`max` are u32, `kind` is
`Option<DamageKind>`. -/
structure Damage where
  min : Nat
  max : Nat
  kind : Option DamageKind
deriving DecidableEq

/-- `Damage::add`: componentwise addition of `min` and `max`; the kind is
left unchanged. -/
def Damage.add (d other : Damage) : Damage :=
  { d with min := d.min + other.min, max := d.max + other.max }

/-- `Damage::roll`: `rand::thread_rng().gen_range(min, max + 1)` draws a
uniform value in `[min, max]`.  The draw is embedded by an explicit oracle
value `r`; `min + r % (max + 1 - min)` ranges over exactly `[min, max]` as
`r` ranges over `Nat`.  (`gen_range` panics when `max < min`; no damage
spec in the sources has `max < min`.) -/
def Damage.roll (d : Damage) (r : Nat) : Nat :=
  d.min + r % (d.max + 1 - d.min)

/-- Sort key for `bonus_damage.sort_by_key(|d| d.kind)` in
`DamageList::create`: Rust orders `Option` with `None` first, then `Some`
by the inner `Ord`. -/
def Damage.sortKey (d : Damage) : Nat :=
  match d.kind with
  | none => 0
  | some k => k.idx + 1

/-- The sorted bonus list of `DamageList::create`.  Rust's
`sort_by_key` is a stable sort; `List.insertionSort` with a `≤` key
comparison is also stable, so the two agree on every input. -/
def sortBonuses (l : List Damage) : List Damage :=
  l.insertionSort (fun a b => a.sortKey ≤ b.sortKey)

/-- The `DamageList` struct of `damage.rs`: the component vector plus the
aggregate `min`/`max` totals tracked for display. -/
structure DamageList where
  damage : List Damage
  min : Nat
  max : Nat
deriving DecidableEq

/-- `DamageList::new`: empty component list, zero totals. -/
def DamageList.new : DamageList :=
  { damage := [], min := 0, max := 0 }

/-- The mutation `self.damage[0].add(damage)` of `DamageList::create`:
add the bonus into the first component of the vector.  (In the source the
vector is never empty at this point, since the base component has already
been pushed.) -/
def addToHead (vec : List Damage) (d : Damage) : List Damage :=
  match vec with
  | [] => []
  | h :: t => h.add d :: t

/-- One iteration of the bonus-merging loop of `DamageList::create`,
acting on the component vector and the running `cur_damage` bucket.
A bonus with an unset kind or with the base component's kind is added
into component 0.  Otherwise the source matches on `cur_damage` by value;
because `Damage` is `Copy`, the arm `Some(mut cur_damage_unwrapped)`
binds a copy, so the `cur_damage_unwrapped.add(damage)` performed when
the kinds match mutates only the copy and is discarded — the running
bucket is left unchanged.  This embedding reproduces that behaviour
exactly. -/
def mergeStep (vec : List Damage) (cur : Option Damage) (d : Damage) :
    List Damage × Option Damage :=
  if d.kind = none ∨ d.kind = ((vec.headD { min := 0, max := 0, kind := none }).kind) then
    (addToHead vec d, cur)
  else
    match cur with
    | none => (vec, some d)
    | some c =>
      if c.kind = d.kind then
        (vec, cur)
      else
        (vec ++ [c], some d)

/-- Loop state of `DamageList::create`: the component vector, the running
`cur_damage` bucket, and the aggregate `min`/`max` accumulators. -/
structure CreateState where
  vec : List Damage
  cur : Option Damage
  minAcc : Nat
  maxAcc : Nat

/-- One full iteration of the `for damage in bonus_damage` loop of
`DamageList::create`: `min`/`max` are accumulated unconditionally at the
top of the loop body, then the component merge runs. -/
def createStep (st : CreateState) (d : Damage) : CreateState :=
  let p := mergeStep st.vec st.cur d
  { vec := p.1, cur := p.2, minAcc := st.minAcc + d.min, maxAcc := st.maxAcc + d.max }

/-- `DamageList::create`: rejects (no-op) a base damage with no kind;
otherwise pushes the base component, iterates over the bonuses sorted by
kind, and finally flushes the remaining `cur_damage` bucket and stores
the aggregate totals. -/
def DamageList.create (dl : DamageList) (base_damage : Damage)
    (bonus_damage : List Damage) : DamageList :=
  if base_damage.kind = none then dl
  else
    let init : CreateState :=
      { vec := dl.damage ++ [base_damage], cur := none,
        minAcc := base_damage.min, maxAcc := base_damage.max }
    let st := (sortBonuses bonus_damage).foldl createStep init
    let vec :=
      match st.cur with
      | none => st.vec
      | some c => st.vec ++ [c]
    { damage := vec, min := st.minAcc, max := st.maxAcc }

/-- Conversion of a nonnegative `f32` damage value back to u32 by `as u32`:
truncation toward zero, saturating at the u32 range.  On the rationals of
this embedding that is `Int.floor` (all values are nonnegative), clamped
into `[0, 2^32 - 1]` by `Int.toNat` and `min`. -/
def f32_as_u32 (q : ℚ) : Nat :=
  min (Int.floor q).toNat (2 ^ 32 - 1)

/-- Modelled from the spec: the `Armor` type of `sulis_rules` is not among
the provided sources; per the spec it stores per-damage-kind mitigation
values (plus a baseline), and `Armor::amount(kind)` returns the mitigation
against the given kind.  It is embedded as the lookup function itself. -/
structure Armor where
  amount : DamageKind → Nat

/-- The `damage.kind.unwrap()` calls of `DamageList::roll`.  In the source
`unwrap` panics on `None`; every list built by `DamageList::create` has a
kind on every component, and the fallback value here affects only the
kind label of an output pair, never an amount. -/
def unwrapKind (k : Option DamageKind) : DamageKind :=
  k.getD DamageKind.Raw

/-- The component loop of `DamageList::roll`, over the remaining
components, the oracle index `i`, and the running `armor_left` budget.
Each component's rolled damage is multiplied by the tier multiplier and
truncated; a component fully absorbed by the remaining armor contributes
nothing, a partially absorbed one contributes its remainder. -/
def DamageList.rollAux (rng : Nat → Nat) (multiplier : ℚ) :
    List Damage → Nat → Nat → List (DamageKind × Nat)
  | [], _, _ => []
  | d :: rest, i, armorLeft =>
    let damage_amount := f32_as_u32 ((d.roll (rng i) : ℚ) * multiplier)
    if armorLeft ≥ damage_amount then
      DamageList.rollAux rng multiplier rest (i + 1) (armorLeft - damage_amount)
    else
      (unwrapKind d.kind, damage_amount - armorLeft)
        :: DamageList.rollAux rng multiplier rest (i + 1) 0

/-- `DamageList::roll`: empty list rolls to the empty result; otherwise
the armor amount against the base component's kind seeds the shared
`armor_left` budget and the component loop runs in order. -/
def DamageList.roll (dl : DamageList) (armor : Armor) (multiplier : ℚ)
    (rng : Nat → Nat) : List (DamageKind × Nat) :=
  match dl.damage with
  | [] => []
  | d0 :: _ =>
    DamageList.rollAux rng multiplier dl.damage 0 (armor.amount (unwrapKind d0.kind))

/-- The `HitKind` enum of `sulis_rules` (not among the provided sources;
its variants appear in the `match hit_kind` of `ActorState::attack` and in
the spec): Miss, Graze, Hit, Crit. -/
inductive HitKind where
  | Miss
  | Graze
  | Hit
  | Crit
deriving DecidableEq

/-- The Debug rendering of a `HitKind`, used by the
`format!("{:?}: {} damage", ...)` of `ActorState::attack`. -/
def HitKind.name : HitKind → String
  | .Miss => "Miss"
  | .Graze => "Graze"
  | .Hit => "Hit"
  | .Crit => "Crit"

/-- Modelled from the spec: the `Rules` struct of `sulis_rules` is not
among the provided sources.  Per the spec it is the read-only ruleset:
base AP per turn, AP cost per attack, base initiative, and the per-tier
damage multipliers read by `ActorState::attack`. -/
structure Rules where
  base_ap : Nat
  attack_ap : Nat
  base_initiative : Int
  graze_damage_multiplier : ℚ
  hit_damage_multiplier : ℚ
  crit_damage_multiplier : ℚ

/-- Modelled from the spec: the `StatList` struct of `sulis_rules` is not
among the provided sources.  Only the derived stats read by the embedded
`ActorState` operations are carried: accuracy, defense, per-kind armor,
the damage profile, and max HP. -/
structure StatList where
  accuracy : Int
  defense : Int
  armor : Armor
  damage : DamageList
  max_hp : Int

/-- The mutable per-entity state of `ActorState` in `actor_state.rs`:
`hp: i32`, `ap: u32`, the computed stats snapshot, and the registered
change listeners.  `ChangeListenerList` (from `sulis_state`, not among
the provided sources) is modelled from the spec as the list of registered
listener ids; invocations are made observable through `callLog`, which
records the id of every invoked listener in order. -/
structure ActorState where
  hp : Int
  ap : Nat
  stats : StatList
  listeners : List Nat
  callLog : List Nat

/-- `self.listeners.notify(&self)`: invoke every registered change
listener, in registration order. -/
def ActorState.notify (s : ActorState) : ActorState :=
  { s with callLog := s.callLog ++ s.listeners }

/-- `ActorState::remove_ap`: subtract clamped at zero (`ap` is u32), then
notify the listeners. -/
def ActorState.remove_ap (s : ActorState) (ap : Nat) : ActorState :=
  let s := if ap > s.ap then { s with ap := 0 } else { s with ap := s.ap - ap }
  s.notify

/-- Wrap an integer into the i32 value range, as Rust release-mode
arithmetic does on overflow. -/
def i32wrap (x : Int) : Int :=
  (x + 2 ^ 31) % 2 ^ 32 - 2 ^ 31

/-- The `hp as i32` cast in `ActorState::remove_hp`: a u32 value
reinterpreted as an i32, so values of `2^31` and above become negative. -/
def u32_as_i32 (a : Nat) : Int :=
  i32wrap (a % 2 ^ 32)

/-- `ActorState::remove_hp`: the `u32` argument is cast to i32 and
compared against the current hp; a larger argument clamps hp to zero,
otherwise it is subtracted (i32 arithmetic).  The listeners are notified
in both cases. -/
def ActorState.remove_hp (s : ActorState) (hp : Nat) : ActorState :=
  let c := u32_as_i32 hp
  let s :=
    if c > s.hp then { s with hp := 0 }
    else { s with hp := i32wrap (s.hp - c) }
  s.notify

/-- `ActorState::is_dead`: hp at or below zero. -/
def ActorState.is_dead (s : ActorState) : Bool :=
  s.hp ≤ 0

/-- `ActorState::init`: hp is set to the stats' max hp. -/
def ActorState.init (s : ActorState) : ActorState :=
  { s with hp := s.stats.max_hp }

/-- `ActorState::init_turn`: ap is reset to the rules' base ap, then the
listeners are notified. -/
def ActorState.init_turn (s : ActorState) (rules : Rules) : ActorState :=
  ({ s with ap := rules.base_ap }).notify

/-- `ActorState::end_turn`: ap is forced to zero.  No listener
notification occurs in the source. -/
def ActorState.end_turn (s : ActorState) : ActorState :=
  { s with ap := 0 }

/-- `ActorState::compute_stats`: the stats snapshot is recomputed from
scratch, then the listeners are notified.  The aggregation pipeline
itself (`StatList::add`, `add_multiple`, `finalize` and
`rules.compute_damage_from`, all defined in `sulis_rules`/`sulis_module`
outside the provided sources) is modelled from the spec as an externally
supplied recomputed snapshot `recomputed`, the function of race stats,
class levels, equipment and effects described in the spec. -/
def ActorState.compute_stats (s : ActorState) (recomputed : StatList) : ActorState :=
  ({ s with stats := recomputed }).notify

/-- The result colors used by `ActorState::attack` (`color::GRAY` on a
miss or fully absorbed damage, `color::RED` when damage is applied). -/
inductive Color where
  | Gray
  | Red
deriving DecidableEq

/-- The damage multiplier selected from the rules for each non-miss hit
tier in `ActorState::attack` (the Miss arm returns before any multiplier
is selected; its value here is irrelevant). -/
def Rules.multiplierFor (rules : Rules) : HitKind → ℚ
  | .Miss => 0
  | .Graze => rules.graze_damage_multiplier
  | .Hit => rules.hit_damage_multiplier
  | .Crit => rules.crit_damage_multiplier

/-- `ActorState::attack`: the attacker pays the attack AP cost first,
then `rules.attack_roll(accuracy, defense)` (a randomized function of
`sulis_rules`, not among the provided sources, embedded as the oracle
`attack_roll`) produces the hit tier.  A miss returns immediately with
the distinct "Miss" result and no damage roll; otherwise the tier's
multiplier is fed to `DamageList::roll` against the target's armor, an
empty roll result applies no damage, and a non-empty one removes the
summed total from the target's hp.  Returns the updated attacker and
target states together with the result string and color. -/
def ActorState.attack (rules : Rules) (attack_roll : Int → Int → HitKind)
    (rng : Nat → Nat) (attacker target : ActorState) :
    ActorState × ActorState × String × Color :=
  let attacker := attacker.remove_ap rules.attack_ap
  let hit_kind := attack_roll attacker.stats.accuracy target.stats.defense
  match hit_kind with
  | .Miss => (attacker, target, "Miss", Color.Gray)
  | k =>
    let damage := attacker.stats.damage.roll target.stats.armor (rules.multiplierFor k) rng
    if damage.isEmpty then
      (attacker, target, k.name ++ ": 0 damage", Color.Gray)
    else
      let total := (damage.map (fun p => p.2)).sum
      (attacker, target.remove_hp total,
        k.name ++ ": " ++ toString total ++ " damage", Color.Red)

/-- The `ScriptEntity` handle of `script_entity.rs`: an optional registry
index. -/
structure ScriptEntity where
  index : Option Nat

/-- `ScriptEntity::new`: a handle with the given index. -/
def ScriptEntity.new (index : Nat) : ScriptEntity :=
  { index := some index }

/-- `ScriptEntity::try_unwrap`: fails with a descriptive error when the
handle has no index at all, or when the index no longer resolves to a
live entity.  The turn manager's `entity_checked` (from `sulis_state`,
not among the provided sources; per the spec it returns the entity for a
live index and "not found" for a stale one, never panicking) is embedded
as the lookup function `mgr`. -/
def ScriptEntity.try_unwrap {E : Type} (mgr : Nat → Option E)
    (se : ScriptEntity) : Except String E :=
  match se.index with
  | none => .error "ScriptEntity does not have a valid index"
  | some index =>
    match mgr index with
    | none => .error "ScriptEntity refers to an entity that no longer exists."
    | some entity => .ok entity

/-- The `ScriptEntitySet` struct of `script_entity.rs`: parent index,
ordered optional target indices, optional selected point, affected
points, and the optional surface reference (its `ScriptActiveSurface`
payload is kept abstract as `σ`). -/
structure ScriptEntitySet (σ : Type) where
  parent : Nat
  selected_point : Option (Int × Int)
  affected_points : List (Int × Int)
  indices : List (Option Nat)
  surface : Option σ

/-- The index loop of `filter_entities`: a `None` index is skipped, an
index that `entity_checked` no longer resolves is skipped, and a resolved
entity is kept exactly when the filter predicate accepts it. -/
def filterIndices {E : Type} (mgr : Nat → Option E) (parent : E)
    (filter : E → E → Bool) : List (Option Nat) → List (Option Nat)
  | [] => []
  | none :: rest => filterIndices mgr parent filter rest
  | some index :: rest =>
    match mgr index with
    | none => filterIndices mgr parent filter rest
    | some entity =>
      if filter parent entity then
        some index :: filterIndices mgr parent filter rest
      else
        filterIndices mgr parent filter rest

/-- `filter_entities` of `script_entity.rs`, the common body of
`without_self`, `visible_within`, `visible`, `hostile`, `friendly`,
`reachable`, `attackable` and `threatening` (each supplies its own
predicate, absorbed here into `filter` together with the extra argument
`t`): the parent handle is resolved first (an unresolvable parent is an
error), then the target indices are filtered, and the remaining set
fields are carried over unchanged. -/
def filter_entities {E σ : Type} (mgr : Nat → Option E)
    (set : ScriptEntitySet σ) (filter : E → E → Bool) :
    Except String (ScriptEntitySet σ) :=
  match (ScriptEntity.new set.parent).try_unwrap mgr with
  | .error e => .error e
  | .ok parent =>
    .ok { parent := set.parent,
          indices := filterIndices mgr parent filter set.indices,
          selected_point := set.selected_point,
          affected_points := set.affected_points,
          surface := set.surface }

/-- A damage list with the single base component 5-5 Slashing, as in the
spec's concrete scenarios 1 and 2. -/
def baseOnly5 : DamageList :=
  DamageList.new.create { min := 5, max := 5, kind := some .Slashing } []

/-- An armor whose Slashing mitigation is `n` (and zero against every
other kind). -/
def armorSlash (n : Nat) : Armor :=
  ⟨fun k => if k = DamageKind.Slashing then n else 0⟩

/-- A concrete stats snapshot used by the witness states. -/
def statList0 : StatList :=
  { accuracy := 12, defense := 9, armor := ⟨fun _ => 0⟩,
    damage := DamageList.new, max_hp := 20 }

/-- A concrete actor with hp 10, ap 4 and one registered listener. -/
def actor10 : ActorState :=
  { hp := 10, ap := 4, stats := statList0, listeners := [7], callLog := [] }

/-- A concrete actor whose hp is already negative. -/
def actorNeg : ActorState :=
  { hp := -5, ap := 0, stats := statList0, listeners := [], callLog := [] }

/-- A concrete ruleset for the witness states. -/
def rules0 : Rules :=
  { base_ap := 8, attack_ap := 3, base_initiative := 1,
    graze_damage_multiplier := 1 / 2, hit_damage_multiplier := 1,
    crit_damage_multiplier := 2 }

/-- A concrete registry for the filter witnesses: only index 0 resolves. -/
def mgr0 : Nat → Option Nat := fun i => if i = 0 then some 99 else none

/-- A concrete target set for the filter witnesses: parent 0; one `None`
index, one live index and one stale index. -/
def set0 : ScriptEntitySet Nat :=
  { parent := 0, selected_point := some (3, 4), affected_points := [(1, 2)],
    indices := [none, some 0, some 5], surface := some 42 }

/-- Sanity check (spec concrete scenario 3, component shape): base 1-1
Slashing plus a 2-2 Fire bonus creates the two components unchanged. -/
theorem create_scenario3_components :
    (DamageList.new.create { min := 1, max := 1, kind := some .Slashing }
      [{ min := 2, max := 2, kind := some .Fire }]).damage =
    [{ min := 1, max := 1, kind := some .Slashing },
     { min := 2, max := 2, kind := some .Fire }] := by decide

/-- Sanity check: a kindless bonus and a base-kind bonus both merge into
the base component, regardless of their position in the bonus list. -/
theorem create_unset_kind_merges_into_base :
    (DamageList.new.create { min := 1, max := 1, kind := some .Slashing }
      [{ min := 2, max := 2, kind := some .Fire },
       { min := 4, max := 6, kind := none },
       { min := 3, max := 3, kind := some .Slashing }]).damage =
    [{ min := 8, max := 10, kind := some .Slashing },
     { min := 2, max := 2, kind := some .Fire }] := by decide

theorem f32_as_u32_natCast (n : Nat) (h : n < 4294967296) :
    f32_as_u32 ((n : ℚ) * 1) = n := by
  unfold f32_as_u32
  rw [mul_one, Int.floor_natCast, Int.toNat_natCast]
  omega

theorem roll_base5_slash (n : Nat) (rng : Nat → Nat) :
    baseOnly5.roll (armorSlash n) 1 rng =
      if n ≥ 5 then [] else [(DamageKind.Slashing, 5 - n)] := by
  have hb : baseOnly5 =
      { damage := [{ min := 5, max := 5, kind := some .Slashing }], min := 5, max := 5 } := by
    decide
  have hdraw : Damage.roll { min := 5, max := 5, kind := some .Slashing } (rng 0) = 5 := by
    simp [Damage.roll, Nat.mod_one]
  have harm : (armorSlash n).amount DamageKind.Slashing = n := by
    simp [armorSlash]
  rw [hb]
  simp only [DamageList.roll, DamageList.rollAux, unwrapKind, Option.getD, harm,
    hdraw, f32_as_u32_natCast 5 (by omega)]

/-- C1: rolling the single-component list 5-5 Slashing with multiplier 1
against Slashing armor 3 yields exactly [(Slashing, 2)], and against
Slashing armor 10 yields the empty list: the component is fully absorbed
and silently dropped.  Since min = max, the result is the same for every
random oracle. -/
theorem roll_slashing_scenarios (rng : Nat → Nat) :
    baseOnly5.roll (armorSlash 3) 1 rng = [(DamageKind.Slashing, 2)] ∧
    baseOnly5.roll (armorSlash 10) 1 rng = [] := by
  refine ⟨?_, ?_⟩ <;> rw [roll_base5_slash] <;> rfl

/-- C2: evaluation of `DamageList::create` at base 1-1 Slashing with the
two Fire bonuses 2-2 and 3-3.  The claim (and the spec) say the two Fire
bonuses merge additively into one 5-5 Fire component; in the source the
`Some(mut cur_damage_unwrapped)` match arm copies the `Copy` bucket, so
`cur_damage_unwrapped.add(damage)` mutates a discarded copy and the 3-3
bonus is lost from the component list (the aggregate min/max totals still
count it, so the list's totals disagree with its components). -/
theorem create_same_kind_merge_lost :
    (DamageList.new.create { min := 1, max := 1, kind := some .Slashing }
        [{ min := 2, max := 2, kind := some .Fire },
         { min := 3, max := 3, kind := some .Fire }]).damage =
      [{ min := 1, max := 1, kind := some .Slashing },
       { min := 2, max := 2, kind := some .Fire }] ∧
    (DamageList.new.create { min := 1, max := 1, kind := some .Slashing }
        [{ min := 2, max := 2, kind := some .Fire },
         { min := 3, max := 3, kind := some .Fire }]).min = 6 ∧
    (DamageList.new.create { min := 1, max := 1, kind := some .Slashing }
        [{ min := 2, max := 2, kind := some .Fire },
         { min := 3, max := 3, kind := some .Fire }]).max = 6 := by
  decide

theorem rollAux_pos (rng : Nat → Nat) (mult : ℚ) (l : List Damage) :
    ∀ (i armorLeft : Nat) (p : DamageKind × Nat),
      p ∈ DamageList.rollAux rng mult l i armorLeft → 0 < p.2 := by
  induction l with
  | nil =>
    intro i a p h
    simp [DamageList.rollAux] at h
  | cons d rest ih =>
    intro i a p h
    simp only [DamageList.rollAux] at h
    split at h
    · exact ih _ _ p h
    · rcases List.mem_cons.mp h with h1 | h2
      · subst h1
        simp only []
        omega
      · exact ih _ _ p h2

/-- C6: for every damage list, armor, multiplier and random oracle, no
pair in the result of `roll` has amount 0: fully absorbed or zero-damage
components are omitted from the output entirely. -/
theorem roll_never_zero (dl : DamageList) (armor : Armor) (mult : ℚ)
    (rng : Nat → Nat) (p : DamageKind × Nat)
    (hp : p ∈ dl.roll armor mult rng) : p.2 ≠ 0 := by
  unfold DamageList.roll at hp
  split at hp
  · simp at hp
  · have := rollAux_pos rng mult dl.damage 0 _ p hp
    omega

/-- Witness for C6: the concrete scenario-1 roll contains (Slashing, 2),
whose amount the theorem then proves nonzero. -/
theorem roll_never_zero_witness : (2 : Nat) ≠ 0 :=
  roll_never_zero baseOnly5 (armorSlash 3) 1 (fun _ => 0) (DamageKind.Slashing, 2)
    (by rw [roll_base5_slash]; decide)

theorem foldl_createStep_minAcc (l : List Damage) :
    ∀ st : CreateState, (l.foldl createStep st).minAcc = st.minAcc + (l.map Damage.min).sum := by
  induction l with
  | nil => intro st; simp
  | cons d t ih =>
    intro st
    rw [List.foldl_cons, ih]
    have h : (createStep st d).minAcc = st.minAcc + d.min := rfl
    rw [h]
    simp only [List.map_cons, List.sum_cons]
    omega

theorem foldl_createStep_maxAcc (l : List Damage) :
    ∀ st : CreateState, (l.foldl createStep st).maxAcc = st.maxAcc + (l.map Damage.max).sum := by
  induction l with
  | nil => intro st; simp
  | cons d t ih =>
    intro st
    rw [List.foldl_cons, ih]
    have h : (createStep st d).maxAcc = st.maxAcc + d.max := rfl
    rw [h]
    simp only [List.map_cons, List.sum_cons]
    omega

theorem sortBonuses_map_sum (f : Damage → Nat) (l : List Damage) :
    ((sortBonuses l).map f).sum = (l.map f).sum :=
  ((List.perm_insertionSort _ l).map f).sum_eq

theorem create_min_eq (dl : DamageList) (base : Damage) (bs : List Damage) :
    (dl.create base bs).min =
      if base.kind = none then dl.min else base.min + (bs.map Damage.min).sum := by
  by_cases hk : base.kind = none
  · simp [DamageList.create, hk]
  · unfold DamageList.create
    rw [if_neg hk, if_neg hk]
    show ((sortBonuses bs).foldl createStep
        { vec := dl.damage ++ [base], cur := none,
          minAcc := base.min, maxAcc := base.max }).minAcc =
      base.min + (List.map Damage.min bs).sum
    rw [foldl_createStep_minAcc, sortBonuses_map_sum]

theorem create_max_eq (dl : DamageList) (base : Damage) (bs : List Damage) :
    (dl.create base bs).max =
      if base.kind = none then dl.max else base.max + (bs.map Damage.max).sum := by
  by_cases hk : base.kind = none
  · simp [DamageList.create, hk]
  · unfold DamageList.create
    rw [if_neg hk, if_neg hk]
    show ((sortBonuses bs).foldl createStep
        { vec := dl.damage ++ [base], cur := none,
          minAcc := base.min, maxAcc := base.max }).maxAcc =
      base.max + (List.map Damage.max bs).sum
    rw [foldl_createStep_maxAcc, sortBonuses_map_sum]

/-- C8: the aggregate min and max totals reported by a created damage
list are invariant under permutation of the bonus vector. -/
theorem create_totals_perm (dl : DamageList) (base : Damage)
    (bs bs' : List Damage) (h : bs.Perm bs') :
    (dl.create base bs).min = (dl.create base bs').min ∧
    (dl.create base bs).max = (dl.create base bs').max := by
  rw [create_min_eq, create_min_eq, create_max_eq, create_max_eq,
    (h.map Damage.min).sum_eq, (h.map Damage.max).sum_eq]
  exact ⟨rfl, rfl⟩

/-- Witness for C8: swapping two concrete bonuses leaves the created
totals unchanged. -/
theorem create_totals_perm_witness :
    (DamageList.new.create { min := 1, max := 2, kind := some .Slashing }
        [{ min := 2, max := 4, kind := some .Fire },
         { min := 3, max := 5, kind := some .Cold }]).min =
      (DamageList.new.create { min := 1, max := 2, kind := some .Slashing }
        [{ min := 3, max := 5, kind := some .Cold },
         { min := 2, max := 4, kind := some .Fire }]).min ∧
    (DamageList.new.create { min := 1, max := 2, kind := some .Slashing }
        [{ min := 2, max := 4, kind := some .Fire },
         { min := 3, max := 5, kind := some .Cold }]).max =
      (DamageList.new.create { min := 1, max := 2, kind := some .Slashing }
        [{ min := 3, max := 5, kind := some .Cold },
         { min := 2, max := 4, kind := some .Fire }]).max :=
  create_totals_perm DamageList.new _ _ _ (by decide)

theorem remove_ap_stats (s : ActorState) (a : Nat) :
    (s.remove_ap a).stats = s.stats := by
  unfold ActorState.remove_ap ActorState.notify
  split <;> rfl

theorem remove_ap_ap_eq (s : ActorState) (a : Nat) :
    (s.remove_ap a).ap = s.ap - a := by
  unfold ActorState.remove_ap ActorState.notify
  split
  · show (0 : Nat) = s.ap - a
    omega
  · rfl

/-- C3: when the accuracy-vs-defense roll produces Miss, `attack` returns
immediately after the AP deduction: the defender's state (in particular
its HP) is unchanged, the distinct "Miss" result string is returned, and
the result is the same for every damage-roll oracle `rng` — the damage
resolution engine is never invoked. -/
theorem attack_miss_no_damage (rules : Rules) (attack_roll : Int → Int → HitKind)
    (rng : Nat → Nat) (attacker target : ActorState)
    (h : attack_roll attacker.stats.accuracy target.stats.defense = HitKind.Miss) :
    ActorState.attack rules attack_roll rng attacker target =
      (attacker.remove_ap rules.attack_ap, target, "Miss", Color.Gray) := by
  have h2 : attack_roll (attacker.remove_ap rules.attack_ap).stats.accuracy
      target.stats.defense = HitKind.Miss := by
    rw [remove_ap_stats]; exact h
  simp only [ActorState.attack, h2]

/-- Witness for C3: a concrete missed attack leaves the target untouched
and returns the "Miss" result. -/
theorem attack_miss_no_damage_witness :
    ActorState.attack rules0 (fun _ _ => HitKind.Miss) (fun _ => 0) actor10 actorNeg =
      (actor10.remove_ap rules0.attack_ap, actorNeg, "Miss", Color.Gray) :=
  attack_miss_no_damage rules0 (fun _ _ => HitKind.Miss) (fun _ => 0) actor10 actorNeg rfl

/-- C4: every call to `attack` pays the AP cost: the returned attacker's
AP is the old AP minus `rules.attack_ap`, clamped at zero (truncated
subtraction), whatever hit tier the roll oracle produces and whatever the
damage roll yields. -/
theorem attack_ap_cost (rules : Rules) (attack_roll : Int → Int → HitKind)
    (rng : Nat → Nat) (attacker target : ActorState) :
    (ActorState.attack rules attack_roll rng attacker target).1.ap =
      attacker.ap - rules.attack_ap := by
  cases h : attack_roll (attacker.remove_ap rules.attack_ap).stats.accuracy
      target.stats.defense with
  | Miss =>
    simp only [ActorState.attack, h]
    exact remove_ap_ap_eq attacker rules.attack_ap
  | Graze =>
    simp only [ActorState.attack, h]
    split <;> exact remove_ap_ap_eq attacker rules.attack_ap
  | Hit =>
    simp only [ActorState.attack, h]
    split <;> exact remove_ap_ap_eq attacker rules.attack_ap
  | Crit =>
    simp only [ActorState.attack, h]
    split <;> exact remove_ap_ap_eq attacker rules.attack_ap

/-- C5 counterexample: the claim quantifies over every u32 argument, but
`remove_hp` casts its u32 argument to i32.  On `actor10` (hp 10) the
argument 4294967295 (cast: -1) exceeds the current HP yet the resulting
hp is 11, not 0; and the argument 2147483648 (cast: -2^31) drives the
subtraction past i32::MAX, leaving hp at -2147483638, below zero
(release-mode wrapping; a debug build would panic on the overflow —
either way the claimed clamp-at-zero behaviour fails). -/
theorem remove_hp_wrap_counterexample :
    (4294967295 : Int) > actor10.hp ∧
    (actor10.remove_hp 4294967295).hp = 11 ∧
    ¬ 0 ≤ (actor10.remove_hp 2147483648).hp := by
  decide

theorem i32wrap_eq_self (x : Int) (h1 : -(2 ^ 31) ≤ x) (h2 : x < 2 ^ 31) :
    i32wrap x = x := by
  unfold i32wrap
  omega

theorem u32_as_i32_small (a : Nat) (h : a < 2 ^ 31) : u32_as_i32 a = a := by
  unfold u32_as_i32 i32wrap
  omega

theorem remove_hp_hp_eq (s : ActorState) (a : Nat) :
    (s.remove_hp a).hp =
      if u32_as_i32 a > s.hp then 0 else i32wrap (s.hp - u32_as_i32 a) := by
  show (ActorState.notify
      (if u32_as_i32 a > s.hp then { s with hp := 0 }
       else { s with hp := i32wrap (s.hp - u32_as_i32 a) })).hp = _
  split <;> rfl

theorem remove_hp_callLog_eq (s : ActorState) (a : Nat) :
    (s.remove_hp a).callLog = s.callLog ++ s.listeners := by
  show (ActorState.notify
      (if u32_as_i32 a > s.hp then { s with hp := 0 }
       else { s with hp := i32wrap (s.hp - u32_as_i32 a) })).callLog = _
  split <;> rfl

theorem remove_ap_callLog_eq (s : ActorState) (a : Nat) :
    (s.remove_ap a).callLog = s.callLog ++ s.listeners := by
  unfold ActorState.remove_ap ActorState.notify
  split <;> rfl

/-- C5 amended: for every starting HP (any i32 value) and every argument
below 2^31 (so that the `u32 as i32` cast preserves the value),
`remove_hp` leaves HP at or above 0 and an argument exceeding the current
HP clamps HP to exactly 0; `remove_ap` clamps AP at zero (truncated
subtraction, never below 0); and the concrete scenario holds: hp 10 with
`remove_hp 15` ends at hp 0 and `is_dead`. -/
theorem remove_hp_remove_ap_clamp (s : ActorState) (a b : Nat)
    (ha : a < 2 ^ 31) (hhp : s.hp < 2 ^ 31) :
    0 ≤ (s.remove_hp a).hp ∧
    ((a : Int) > s.hp → (s.remove_hp a).hp = 0) ∧
    (s.remove_ap b).ap = s.ap - b ∧
    (actor10.remove_hp 15).hp = 0 ∧
    actor10.is_dead = false ∧ (actor10.remove_hp 15).is_dead = true := by
  have hc : u32_as_i32 a = a := u32_as_i32_small a ha
  have hmain : 0 ≤ (s.remove_hp a).hp ∧ ((a : Int) > s.hp → (s.remove_hp a).hp = 0) := by
    rw [remove_hp_hp_eq, hc]
    constructor
    · split
      · exact le_refl 0
      · rename_i hle
        rw [i32wrap_eq_self (s.hp - a) (by omega) (by omega)]
        omega
    · intro hgt
      rw [if_pos hgt]
  exact ⟨hmain.1, hmain.2, remove_ap_ap_eq s b, by decide, by decide, by decide⟩

/-- Witness for C5: the amended theorem applied at the concrete state
`actor10` with argument 15. -/
theorem remove_hp_remove_ap_clamp_witness :
    0 ≤ (actor10.remove_hp 15).hp ∧
    ((15 : Int) > actor10.hp → (actor10.remove_hp 15).hp = 0) ∧
    (actor10.remove_ap 2).ap = actor10.ap - 2 ∧
    (actor10.remove_hp 15).hp = 0 ∧
    actor10.is_dead = false ∧ (actor10.remove_hp 15).is_dead = true :=
  remove_hp_remove_ap_clamp actor10 15 2 (by norm_num) (by norm_num [actor10])

/-- C7 counterexample: `end_turn` mutates AP but performs no listener
notification: on `actor10`, which has one registered listener, the call
log stays empty instead of recording the invocation. -/
theorem end_turn_no_notify_counterexample :
    actor10.end_turn.callLog ≠ actor10.callLog ++ actor10.listeners := by
  decide

/-- C7 amended: `compute_stats`, `remove_hp`, `remove_ap` and `init_turn`
each invoke all registered change listeners (in registration order)
before returning; `end_turn` mutates AP without invoking them. -/
theorem mutating_ops_notify (s : ActorState) (a b : Nat) (rules : Rules)
    (recomputed : StatList) :
    (s.remove_ap a).callLog = s.callLog ++ s.listeners ∧
    (s.remove_hp b).callLog = s.callLog ++ s.listeners ∧
    (s.init_turn rules).callLog = s.callLog ++ s.listeners ∧
    (s.compute_stats recomputed).callLog = s.callLog ++ s.listeners ∧
    s.end_turn.callLog = s.callLog := by
  exact ⟨remove_ap_callLog_eq s a, remove_hp_callLog_eq s b, rfl, rfl, rfl⟩

theorem filterIndices_resolve {E : Type} (mgr : Nat → Option E) (parent : E)
    (filter : E → E → Bool) :
    ∀ (l : List (Option Nat)) (oi : Option Nat),
      oi ∈ filterIndices mgr parent filter l →
      ∃ i e, oi = some i ∧ mgr i = some e := by
  intro l
  induction l with
  | nil =>
    intro oi h
    simp [filterIndices] at h
  | cons hd t ih =>
    intro oi h
    match hd with
    | none =>
      exact ih oi h
    | some i =>
      rw [filterIndices] at h
      cases hm : mgr i with
      | none =>
        simp only [hm] at h
        exact ih oi h
      | some e =>
        simp only [hm] at h
        by_cases hf : filter parent e
        · rw [if_pos hf] at h
          rcases List.mem_cons.mp h with h1 | h2
          · exact ⟨i, e, h1, hm⟩
          · exact ih oi h2
        · rw [if_neg hf] at h
          exact ih oi h

theorem filterIndices_sublist {E : Type} (mgr : Nat → Option E) (parent : E)
    (filter : E → E → Bool) :
    ∀ l : List (Option Nat), List.Sublist (filterIndices mgr parent filter l) l := by
  intro l
  induction l with
  | nil => exact List.nil_sublist _
  | cons hd t ih =>
    match hd with
    | none =>
      exact List.Sublist.cons none ih
    | some i =>
      rw [filterIndices]
      cases hm : mgr i with
      | none =>
        simp only [hm]
        exact List.Sublist.cons (some i) ih
      | some e =>
        simp only [hm]
        by_cases hf : filter parent e
        · rw [if_pos hf]
          exact List.Sublist.cons₂ (some i) ih
        · rw [if_neg hf]
          exact List.Sublist.cons (some i) ih

/-- C9: when the set's parent index resolves, `filter_entities` succeeds
for every list of target indices and every predicate: a `None` index, or
an index the registry no longer resolves, is silently excluded from the
result (every surviving index is a `Some` that resolves to a live
entity), and no error is produced. -/
theorem filter_entities_total {E σ : Type} (mgr : Nat → Option E)
    (set : ScriptEntitySet σ) (filter : E → E → Bool) (p : E)
    (h : mgr set.parent = some p) :
    ∃ out, filter_entities mgr set filter = Except.ok out ∧
      ∀ oi ∈ out.indices, ∃ i e, oi = some i ∧ mgr i = some e := by
  refine ⟨{ parent := set.parent,
            indices := filterIndices mgr p filter set.indices,
            selected_point := set.selected_point,
            affected_points := set.affected_points,
            surface := set.surface }, ?_, ?_⟩
  · unfold filter_entities ScriptEntity.try_unwrap ScriptEntity.new
    simp only [h]
  · intro oi hoi
    exact filterIndices_resolve mgr p filter set.indices oi hoi

/-- Witness for C9: on the concrete set, filtering with the always-true
predicate succeeds and every surviving index resolves. -/
theorem filter_entities_total_witness :
    ∃ out, filter_entities mgr0 set0 (fun _ _ => true) = Except.ok out ∧
      ∀ oi ∈ out.indices, ∃ i e, oi = some i ∧ mgr0 i = some e :=
  filter_entities_total mgr0 set0 (fun _ _ => true) 99 rfl

/-- C10: whenever `filter_entities` succeeds, the returned set keeps the
input's parent, selected point, affected points and surface unchanged,
and its indices form an order-preserving subsequence of the input's
indices: no index is introduced, duplicated or reordered. -/
theorem filter_entities_frame {E σ : Type} (mgr : Nat → Option E)
    (set : ScriptEntitySet σ) (filter : E → E → Bool)
    (out : ScriptEntitySet σ)
    (h : filter_entities mgr set filter = Except.ok out) :
    out.parent = set.parent ∧ out.selected_point = set.selected_point ∧
    out.affected_points = set.affected_points ∧ out.surface = set.surface ∧
    List.Sublist out.indices set.indices := by
  unfold filter_entities at h
  cases hm : (ScriptEntity.new set.parent).try_unwrap mgr with
  | error e =>
    simp only [hm] at h
    exact absurd h (by simp)
  | ok p =>
    simp only [hm] at h
    injection h with h2
    subst h2
    exact ⟨rfl, rfl, rfl, rfl, filterIndices_sublist mgr p filter set.indices⟩

/-- Witness for C10: the concrete filtered set keeps the frame fields and
its indices are a subsequence of the input's. -/
theorem filter_entities_frame_witness :
    ({ parent := 0, selected_point := some (3, 4), affected_points := [(1, 2)],
       indices := [some 0], surface := some 42 } : ScriptEntitySet Nat).parent
        = set0.parent ∧
    ({ parent := 0, selected_point := some (3, 4), affected_points := [(1, 2)],
       indices := [some 0], surface := some 42 } : ScriptEntitySet Nat).selected_point
        = set0.selected_point ∧
    ({ parent := 0, selected_point := some (3, 4), affected_points := [(1, 2)],
       indices := [some 0], surface := some 42 } : ScriptEntitySet Nat).affected_points
        = set0.affected_points ∧
    ({ parent := 0, selected_point := some (3, 4), affected_points := [(1, 2)],
       indices := [some 0], surface := some 42 } : ScriptEntitySet Nat).surface
        = set0.surface ∧
    List.Sublist
      ({ parent := 0, selected_point := some (3, 4), affected_points := [(1, 2)],
         indices := [some 0], surface := some 42 } : ScriptEntitySet Nat).indices
      set0.indices :=
  filter_entities_frame mgr0 set0 (fun _ _ => true) _ rfl
